import Mathlib

/-!
Shallow embedding of the `trustyai` Python package's LIME wrapper
(`src/trustyai/explainers/lime.py` together with
`trustyai/utils/_visualisation.py`) and proofs about it.

Embedding conventions:
* Python numbers (Java doubles flowing through `getScore()`,
  `getValue().as_number()`, `getConfidence()`, and the numeric literals
  `0.07`, `0.3`) are embedded as rationals `ℚ`; the wrapper never performs
  arithmetic on them, it only stores them and compares them with `0`.
* A Python `dict` is embedded as an association list built by repeated
  insertion (`pyDictInsert`): inserting an existing key overwrites its value
  in place, inserting a fresh key appends it, exactly Python's semantics.
  `dict.get` is `pyGet` (returning `none` for a missing key, like Python's
  `None`).
* Code that can raise a Python exception is embedded in `Except String`;
  the error string names the exception the interpreter or library raises.
* `pandas.DataFrame.from_dict` (default `orient="columns"`) requires all
  column lists to have equal length and otherwise raises
  `ValueError: All arrays must be of the same length`; `pd_DataFrame_from_dict`
  embeds exactly that contract.
* Java objects reachable from this wrapper (`SaliencyResults`, `Saliency`,
  `FeatureImportance`, `LimeConfig`, `EncodingParams`, `PerturbationContext`,
  `Random`, the engine `LimeExplainer`) are embedded structurally with the
  fields this wrapper reads or sets.  The explanation engine itself is
  external and is modelled as an abstract function argument where needed.
* Keyword-argument dictionaries (`**kwargs`) hold dynamically typed values,
  embedded as the sum type `KwVal` of the value kinds the wrapper passes on
  (booleans and integers).
-/

namespace TrustyAI

/-- A dynamically typed keyword-argument value: the LIME constructor only
ever forwards booleans and integers from `kwargs`. -/
inductive KwVal where
  | bool (b : Bool)
  | int (n : Int)
deriving DecidableEq

/-- The `**kwargs` dictionary of the `LimeExplainer` constructor. -/
abbrev Kwargs := List (String × KwVal)

/-- Python dictionary insertion `d[k] = v`: overwrite the value of an
existing key in place, otherwise append the new key at the end. -/
def pyDictInsert {α : Type} : List (String × α) → String → α → List (String × α)
  | [], k, v => [(k, v)]
  | p :: rest, k, v => if p.1 = k then (k, v) :: rest else p :: pyDictInsert rest k v

/-- Python dictionary lookup `d.get(k)`: `none` models Python's `None` for a
missing key. -/
def pyGet {α : Type} : List (String × α) → String → Option α
  | [], _ => none
  | p :: rest, k => if p.1 = k then some p.2 else pyGet rest k

/-- Build a Python dictionary from a sequence of key/value pairs, inserting
them left to right (a dict comprehension). -/
def pyDictOf {α : Type} (l : List (String × α)) : List (String × α) :=
  l.foldl (fun d kv => pyDictInsert d kv.1 kv.2) []

/-- `kwargs.get(k, default)`. -/
def kwget (kwargs : Kwargs) (k : String) (d : KwVal) : KwVal :=
  (pyGet kwargs k).getD d

/-- One Java `FeatureImportance` record as read by this wrapper:
`getFeature().getName()`, `getScore()`, `getFeature().getValue().as_number()`
and `getConfidence()`. -/
structure PFI where
  featureName : String
  score : ℚ
  value : ℚ
  confidence : ℚ
deriving DecidableEq

/-- A Java `Saliency`: the wrapper only reads `getPerFeatureImportance()`. -/
structure Saliency where
  perFeatureImportance : List PFI
deriving DecidableEq

/-- A Java `SaliencyResults`: the wrapper only iterates
`saliencies.entrySet()`, i.e. the output-name/saliency pairs. -/
structure SaliencyResults where
  saliencies : List (String × Saliency)
deriving DecidableEq

/-- `LimeResults`: wraps one `SaliencyResults` (constructor
`__init__(self, saliencyResults)`). -/
structure LimeResults where
  saliency_results : SaliencyResults
deriving DecidableEq

/-- `LimeResults.map()`: the dict comprehension
`{entry.getKey(): entry.getValue() for entry in ..saliencies.entrySet()}`. -/
def LimeResults.map (r : LimeResults) : List (String × Saliency) :=
  pyDictOf r.saliency_results.saliencies

/-- One column of the `data` dict built by `as_dataframe`: either a list of
strings (the `_features` column) or a list of numbers. -/
inductive Column where
  | strs (xs : List String)
  | nums (xs : List ℚ)
deriving DecidableEq

/-- The number of entries of a column. -/
def Column.length : Column → Nat
  | .strs xs => xs.length
  | .nums xs => xs.length

/-- The four `data` entries `as_dataframe` adds for one output `output`:
`f"{output}_features"`, `f"{output}_score"`, `f"{output}_value"`,
`f"{output}_confidence"`, in that order.  `self.map().get(output)` with
`output` drawn from `self.map().keys()` returns exactly that key's value
(dict keys are unique), so the pair `e` carries it directly.  The four
generated names never collide across distinct outputs (no two of the four
suffixes is a suffix of another), so the Python dict insertions are plain
appends and `data` is this concatenation. -/
def outputGroup (e : String × Saliency) : List (String × Column) :=
  [(e.1 ++ "_features", Column.strs (e.2.perFeatureImportance.map PFI.featureName)),
   (e.1 ++ "_score", Column.nums (e.2.perFeatureImportance.map PFI.score)),
   (e.1 ++ "_value", Column.nums (e.2.perFeatureImportance.map PFI.value)),
   (e.1 ++ "_confidence", Column.nums (e.2.perFeatureImportance.map PFI.confidence))]

/-- The `for output in outputs` loop of `as_dataframe` building `data`. -/
def dataLoop : List (String × Saliency) → List (String × Column)
  | [] => []
  | e :: rest => outputGroup e ++ dataLoop rest

/-- The complete `data` dict that `as_dataframe` hands to
`pd.DataFrame.from_dict`. -/
def LimeResults.as_dataframe_data (r : LimeResults) : List (String × Column) :=
  dataLoop (LimeResults.map r)

/-- A pandas `DataFrame` as far as this wrapper observes it: its named
columns in order. -/
structure DataFrame where
  cols : List (String × Column)
deriving DecidableEq

/-- `pd.DataFrame.from_dict(data)` with the default `orient="columns"`:
pandas requires every column list to have the same length and raises
`ValueError: All arrays must be of the same length` otherwise. -/
def pd_DataFrame_from_dict (data : List (String × Column)) : Except String DataFrame :=
  match data with
  | [] => Except.ok ⟨[]⟩
  | c :: rest =>
    if rest.all (fun c2 => c2.2.length == c.2.length)
    then Except.ok ⟨c :: rest⟩
    else Except.error "ValueError: All arrays must be of the same length"

/-- `LimeResults.as_dataframe()`. -/
def LimeResults.as_dataframe (r : LimeResults) : Except String DataFrame :=
  pd_DataFrame_from_dict (LimeResults.as_dataframe_data r)

/-- A pandas `Styler`: the wrapped dataframe plus the style transformations
registered on it. -/
structure Styler where
  data : DataFrame
  applied_styles : List String
deriving DecidableEq

/-- The pandas `DataFrame.style` accessor: a `Styler` over the same data with
no styles applied yet. -/
def DataFrame.style (df : DataFrame) : Styler :=
  ⟨df, []⟩

/-- `LimeResults.as_html()`: `return self.as_dataframe().style`. -/
def LimeResults.as_html (r : LimeResults) : Except String Styler :=
  Except.map DataFrame.style (LimeResults.as_dataframe r)

/-- `DEFAULT_STYLE` from `trustyai/utils/_visualisation.py`. -/
def DEFAULT_STYLE : List (String × String) :=
  [("positive_primary_colour", "#13ba3c"),
   ("negative_primary_colour", "#ee0000"),
   ("neutral_primary_colour", "#ffffff")]

/-- `ds[k]`: all keys this wrapper uses are present, so the fallback string
(standing for Python's `KeyError`) is never returned. -/
def ds (k : String) : String :=
  (pyGet DEFAULT_STYLE k).getD "KeyError"

/-- The colour expression of `plot`'s list comprehension:
`ds["negative_primary_colour"] if i < 0 else ds["positive_primary_colour"]`. -/
def plot_colour (i : ℚ) : String :=
  if i < 0 then ds "negative_primary_colour" else ds "positive_primary_colour"

/-- The `dictionary` built by `plot`:
`dictionary[feature_importance.getFeature().name] = feature_importance.getScore()`
over the per-feature importances, in order. -/
def plot_dictionary (pfis : List PFI) : List (String × ℚ) :=
  pfis.foldl (fun d p => pyDictInsert d p.featureName p.score) []

/-- What `plot` renders: the chart title, the bars (one per `dictionary`
entry, keyed by feature name) and the bar colours (one per entry, in order). -/
structure PlotData where
  title : String
  bars : List (String × ℚ)
  colours : List String
deriving DecidableEq

/-- `LimeResults.plot(decision)`.  `self.map().get(decision)` yields `None`
for an unmapped decision, and `.getPerFeatureImportance()` on `None` raises
`AttributeError`; otherwise the bar data is computed and handed to
matplotlib (the blocking `plt.show()` render itself is outside the model). -/
def LimeResults.plot (r : LimeResults) (decision : String) : Except String PlotData :=
  match pyGet (LimeResults.map r) decision with
  | none =>
    Except.error "AttributeError: NoneType object has no attribute getPerFeatureImportance"
  | some sal =>
    let dictionary := plot_dictionary sal.perFeatureImportance
    Except.ok
      ⟨"LIME explanation of " ++ decision,
       dictionary,
       dictionary.map (fun b => plot_colour b.2)⟩

/-- The colour lambda of `_get_bokeh_plot_dict`:
`ds["positive_primary_colour"] if x >= 0 else ds["negative_primary_colour"]`. -/
def bokeh_color (x : ℚ) : String :=
  if 0 ≤ x then ds "positive_primary_colour" else ds "negative_primary_colour"

/-- One row of the `lime_data_source` dataframe of `_get_bokeh_plot_dict`,
with the derived `color` column.  (The further derived columns use the HTML
helper functions of `_visualisation.py` that are not part of the provided
source; they do not affect the colour-token assignment.) -/
structure BokehRow where
  feature : String
  saliency : ℚ
  color : String
deriving DecidableEq

/-- The `lime_data_source` rows for one output's saliency, with the `color`
column applied per row. -/
def lime_data_source (sal : Saliency) : List BokehRow :=
  sal.perFeatureImportance.map
    (fun pfi => ⟨pfi.featureName, pfi.score, bokeh_color pfi.score⟩)

/-- `_get_bokeh_plot_dict`: one entry per output of `map()`, carrying that
output's data source rows (the bokeh figure construction around them is
opaque rendering-library calls). -/
def LimeResults.get_bokeh_plot_dict (r : LimeResults) : List (String × List BokehRow) :=
  (LimeResults.map r).map (fun e => (e.1, lime_data_source e.2))

/-- `java.util.Random` as this wrapper uses it: built and then seeded with
`setSeed(kwargs.get("seed", 0))`. -/
structure JRandom where
  seed : KwVal
deriving DecidableEq

/-- `PerturbationContext(self._jrandom, kwargs.get("perturbations", 1))`. -/
structure PerturbationContext where
  jrandom : JRandom
  perturbations : KwVal
deriving DecidableEq

/-- `EncodingParams(0.07, 0.3)`. -/
structure EncodingParams where
  first : ℚ
  second : ℚ
deriving DecidableEq

/-- The `LimeConfig` assembled by the constructor's builder chain; every
field below is explicitly set by that chain. -/
structure LimeConfig where
  normalizeWeights : KwVal
  perturbationContext : PerturbationContext
  samples : Int
  encodingParams : EncodingParams
  adaptiveVariance : Bool
  penalizeBalanceSparse : KwVal
  useWLRLinearModel : KwVal
  trackCounterfactuals : KwVal
deriving DecidableEq

/-- The external engine explainer object `_LimeExplainer(self._lime_config)`:
its construction just wraps the configuration. -/
structure EngineLimeExplainer where
  config : LimeConfig
deriving DecidableEq

/-- The attributes a constructed Python `LimeExplainer` holds. -/
structure LimeExplainerState where
  jrandom : JRandom
  lime_config : LimeConfig
  explainer : EngineLimeExplainer
deriving DecidableEq

/-- The observable effects of running `LimeExplainer.__init__`, one per
statement: building and seeding the random generator, building the
configuration, and building the engine wrapper.  `engineExplain` is the
effect of invoking the engine's `explainAsync` — listed so that its absence
from a trace is expressible. -/
inductive InitEffect where
  | buildRandom
  | setSeed
  | buildConfig
  | buildWrapper
  | engineExplain
deriving DecidableEq, BEq

/-- The default of the `samples` parameter: `def __init__(self, samples=10, **kwargs)`. -/
def samples_default : Int := 10

/-- The keyword options the constructor reads; every other key of `kwargs`
is never looked at. -/
def recognised_kwargs : List String :=
  ["normalise_weights", "perturbations", "penalise_sparse_balance",
   "use_wlr_model", "track_counterfactuals", "seed"]

/-- `LimeExplainer.__init__(samples, **kwargs)`: seeds the random generator,
assembles the `LimeConfig` builder chain (which sets every configuration
field), and wraps it in the engine explainer object.  Returns the built
state together with the trace of effects the statements perform.  The
function is total: construction raises no exception for any `kwargs`. -/
def LimeExplainer.init (samples : Int) (kwargs : Kwargs) :
    LimeExplainerState × List InitEffect :=
  let jrandom : JRandom := ⟨kwget kwargs "seed" (KwVal.int 0)⟩
  let config : LimeConfig :=
    { normalizeWeights := kwget kwargs "normalise_weights" (KwVal.bool false)
      perturbationContext := ⟨jrandom, kwget kwargs "perturbations" (KwVal.int 1)⟩
      samples := samples
      encodingParams := ⟨7/100, 3/10⟩
      adaptiveVariance := true
      penalizeBalanceSparse := kwget kwargs "penalise_sparse_balance" (KwVal.bool true)
      useWLRLinearModel := kwget kwargs "use_wlr_model" (KwVal.bool true)
      trackCounterfactuals := kwget kwargs "track_counterfactuals" (KwVal.bool false) }
  (⟨jrandom, config, ⟨config⟩⟩,
   [InitEffect.buildRandom, InitEffect.setSeed, InitEffect.buildConfig,
    InitEffect.buildWrapper])

/-- `LimeExplainer()` with every argument defaulted. -/
def LimeExplainer.init_noargs : LimeExplainerState × List InitEffect :=
  LimeExplainer.init samples_default []

/-- `LimeExplainer.explain(inputs, outputs, model)`:
`_prediction = simple_prediction(inputs, outputs)` followed by
`LimeResults(self._explainer.explainAsync(_prediction, model).get())`.
The conversion step and the engine call are the external collaborators,
passed as functions; there is no `try`/`except` around either call, so an
error from one of them is the result of `explain` itself. -/
def LimeExplainer.explain {I O P M : Type}
    (simple_prediction : I → O → Except String P)
    (explainAsync_get : P → M → Except String SaliencyResults)
    (inputs : I) (outputs : O) (model : M) : Except String LimeResults :=
  match simple_prediction inputs outputs with
  | Except.error err => Except.error err
  | Except.ok _prediction =>
    match explainAsync_get _prediction model with
    | Except.error err => Except.error err
    | Except.ok res => Except.ok ⟨res⟩

/-- The score of the last record with a given feature name, if any: the value
a Python dict holds for that key after inserting every record in order. -/
def lastScore? (k : String) : List PFI → Option ℚ
  | [] => none
  | p :: rest =>
    match lastScore? k rest with
    | some v => some v
    | none => if p.featureName = k then some p.score else none

/-! Helper lemmas about the Python-dict embedding. -/

/-- Looking a key up after a Python-dict insertion: the inserted key maps to
the new value, every other key is untouched. -/
lemma pyGet_pyDictInsert {α : Type} (d : List (String × α)) (k : String) (v : α)
    (k' : String) :
    pyGet (pyDictInsert d k v) k' = if k' = k then some v else pyGet d k' := by
  induction d with
  | nil =>
    simp only [pyDictInsert, pyGet]
    by_cases h : k' = k
    · rw [if_pos h.symm, if_pos h]
    · rw [if_neg (fun hk : k = k' => h hk.symm), if_neg h]
  | cons p rest ih =>
    by_cases hp : p.1 = k
    · simp only [pyDictInsert, if_pos hp, pyGet]
      by_cases hk : k' = k
      · rw [if_pos hk.symm, if_pos hk]
      · rw [if_neg (fun h : k = k' => hk h.symm), if_neg hk,
          if_neg (fun h : p.1 = k' => hk (hp.symm.trans h).symm)]
    · simp only [pyDictInsert, if_neg hp, pyGet, ih]
      by_cases hpk : p.1 = k'
      · have hk : ¬(k' = k) := fun h => hp (hpk.trans h)
        rw [if_pos hpk, if_neg hk, if_pos hpk]
      · rw [if_neg hpk, if_neg hpk]

/-- The key list after a Python-dict insertion: unchanged when the key is
already present, extended at the end otherwise. -/
lemma keys_pyDictInsert {α : Type} (d : List (String × α)) (k : String) (v : α) :
    (pyDictInsert d k v).map Prod.fst =
      if k ∈ d.map Prod.fst then d.map Prod.fst else d.map Prod.fst ++ [k] := by
  induction d with
  | nil => simp [pyDictInsert]
  | cons p rest ih =>
    by_cases hp : p.1 = k
    · simp [pyDictInsert, if_pos hp, hp]
    · simp only [pyDictInsert, if_neg hp, List.map_cons, ih, List.mem_cons]
      have hkp : ¬(k = p.1) := fun h => hp h.symm
      by_cases hk : k ∈ rest.map Prod.fst
      · simp [hk, hkp]
      · simp [hk, hkp]

/-- Python-dict insertion preserves distinctness of keys. -/
lemma nodup_keys_pyDictInsert {α : Type} (d : List (String × α)) (k : String) (v : α)
    (h : (d.map Prod.fst).Nodup) : ((pyDictInsert d k v).map Prod.fst).Nodup := by
  rw [keys_pyDictInsert]
  by_cases hk : k ∈ d.map Prod.fst
  · rwa [if_pos hk]
  · rw [if_neg hk, List.nodup_append]
    exact ⟨h, List.nodup_singleton k, by simpa using hk⟩

/-- A key not among the keys of an association list has no value. -/
lemma pyGet_eq_none_of_not_mem {α : Type} {d : List (String × α)} {k : String}
    (h : k ∉ d.map Prod.fst) : pyGet d k = none := by
  induction d with
  | nil => rfl
  | cons p rest ih =>
    simp only [List.map_cons, List.mem_cons] at h
    push_neg at h
    simp only [pyGet, if_neg (fun hp : p.1 = k => h.1 hp.symm)]
    exact ih h.2

/-- A key holding a value is among the keys. -/
lemma mem_keys_of_pyGet_some {α : Type} {d : List (String × α)} {k : String} {v : α}
    (h : pyGet d k = some v) : k ∈ d.map Prod.fst := by
  induction d with
  | nil => simp [pyGet] at h
  | cons p rest ih =>
    simp only [pyGet] at h
    by_cases hp : p.1 = k
    · simp [← hp]
    · rw [if_neg hp] at h
      simp [ih h]

/-- A key holding a value does so through an actual entry of the list. -/
lemma mem_of_pyGet_some {α : Type} {d : List (String × α)} {k : String} {v : α}
    (h : pyGet d k = some v) : (k, v) ∈ d := by
  induction d with
  | nil => simp [pyGet] at h
  | cons p rest ih =>
    simp only [pyGet] at h
    by_cases hp : p.1 = k
    · rw [if_pos hp] at h
      injection h with h
      have : p = (k, v) := by
        cases p
        simp_all
      rw [← this]
      exact List.mem_cons_self _ _
    · rw [if_neg hp] at h
      exact List.mem_cons_of_mem _ (ih h)

/-- Master lemma for `plot`'s dictionary-building loop, with a general
starting dictionary: the value finally held for a key is the score of the
last record with that feature name, falling back to the starting
dictionary's value. -/
lemma pyGet_plot_fold (pfis : List PFI) :
    ∀ (d : List (String × ℚ)) (k : String),
      pyGet (pfis.foldl (fun d p => pyDictInsert d p.featureName p.score) d) k =
        match lastScore? k pfis with
        | some v => some v
        | none => pyGet d k := by
  induction pfis with
  | nil => intro d k; simp [lastScore?]
  | cons p rest ih =>
    intro d k
    rw [List.foldl_cons, ih]
    simp only [lastScore?]
    cases hrest : lastScore? k rest with
    | some v => rfl
    | none =>
      rw [pyGet_pyDictInsert]
      by_cases hk : k = p.featureName
      · rw [if_pos hk, if_pos hk.symm]
      · rw [if_neg hk, if_neg (fun h : p.featureName = k => hk h.symm)]

/-- The dictionary `plot` builds holds, for each feature name, the score of
the last record carrying that name. -/
lemma pyGet_plot_dictionary (pfis : List PFI) (k : String) :
    pyGet (plot_dictionary pfis) k = lastScore? k pfis := by
  rw [plot_dictionary, pyGet_plot_fold]
  cases lastScore? k pfis <;> rfl

/-- The dictionary `plot` builds has distinct keys. -/
lemma nodup_keys_plot_dictionary (pfis : List PFI) :
    ((plot_dictionary pfis).map Prod.fst).Nodup := by
  rw [plot_dictionary]
  have : ∀ (d : List (String × ℚ)), (d.map Prod.fst).Nodup →
      ((pfis.foldl (fun d p => pyDictInsert d p.featureName p.score) d).map Prod.fst).Nodup := by
    induction pfis with
    | nil => intro d h; exact h
    | cons p rest ih =>
      intro d h
      rw [List.foldl_cons]
      exact ih _ (nodup_keys_pyDictInsert _ _ _ h)
  exact this [] (by simp)

/-- `lastScore?` misses a name exactly when no record carries it. -/
lemma lastScore?_eq_none_iff (k : String) (pfis : List PFI) :
    lastScore? k pfis = none ↔ ∀ p ∈ pfis, p.featureName ≠ k := by
  induction pfis with
  | nil => simp [lastScore?]
  | cons p rest ih =>
    simp only [lastScore?, List.mem_cons]
    cases hrest : lastScore? k rest with
    | some v =>
      simp only [iff_false]
      constructor
      · intro h; exact absurd h (by simp)
      · intro h
        have := ih.mpr (fun q hq => h q (Or.inr hq))
        rw [this] at hrest
        exact absurd hrest (by simp)
    | none =>
      have hall := ih.mp hrest
      constructor
      · intro h q hq
        rcases hq with hq | hq
        · subst hq
          by_cases hp : q.featureName = k
          · rw [if_pos hp] at h; exact absurd h (by simp)
          · exact hp
        · exact hall q hq
      · intro h
        rw [if_neg (h p (Or.inl rfl))]

/-- An association list with distinct keys has exactly one entry for each
key that holds a value. -/
lemma countP_keys_eq_one {α : Type} (l : List (String × α)) (k : String)
    (hnd : (l.map Prod.fst).Nodup) (hmem : k ∈ l.map Prod.fst) :
    l.countP (fun b => b.1 == k) = 1 := by
  have h1 : l.countP (fun b => b.1 == k) = List.count k (l.map Prod.fst) := by
    rw [List.count_eq_countP, List.countP_map]
    rfl
  rw [h1]
  have hle := List.nodup_iff_count_le_one.mp hnd k
  have hpos : 0 < List.count k (l.map Prod.fst) := List.count_pos_iff.mpr hmem
  omega

/-! Helper lemmas about the `as_dataframe` data loop and the pandas
constructor. -/

/-- `data` holds four columns per output. -/
lemma length_dataLoop (l : List (String × Saliency)) :
    (dataLoop l).length = 4 * l.length := by
  induction l with
  | nil => rfl
  | cons e rest ih =>
    simp only [dataLoop, List.length_append, ih, outputGroup, List.length_cons,
      List.length_nil]
    omega

/-- The column names of `data`, in order: the four suffixed names of each
output, outputs in `map()` order. -/
lemma map_fst_dataLoop (l : List (String × Saliency)) :
    (dataLoop l).map Prod.fst =
      l.flatMap (fun e =>
        [e.1 ++ "_features", e.1 ++ "_score", e.1 ++ "_value", e.1 ++ "_confidence"]) := by
  induction l with
  | nil => rfl
  | cons e rest ih =>
    simp [dataLoop, outputGroup, ih]

/-- Each output's four columns appear in `data`. -/
lemma outputGroup_mem_dataLoop (l : List (String × Saliency)) (e : String × Saliency) :
    e ∈ l → ∀ c ∈ outputGroup e, c ∈ dataLoop l := by
  induction l with
  | nil => intro he; simp at he
  | cons e' rest ih =>
    intro he c hc
    rcases List.mem_cons.mp he with h | h
    · subst h
      exact List.mem_append_left _ hc
    · exact List.mem_append_right _ (ih h c hc)

/-- Every column of `data` is one of some output's four, so its length is
that output's record count. -/
lemma col_length_dataLoop {l : List (String × Saliency)} {c : String × Column}
    (hc : c ∈ dataLoop l) :
    ∃ e ∈ l, c.2.length = e.2.perFeatureImportance.length := by
  induction l with
  | nil => simp [dataLoop] at hc
  | cons e rest ih =>
    rw [dataLoop] at hc
    rcases List.mem_append.mp hc with h | h
    · refine ⟨e, List.mem_cons_self _ _, ?_⟩
      simp only [outputGroup, List.mem_cons, List.not_mem_nil, or_false] at h
      rcases h with h | h | h | h <;>
        (subst h; simp [Column.length])
    · obtain ⟨e', he', hlen⟩ := ih h
      exact ⟨e', List.mem_cons_of_mem _ he', hlen⟩

/-- When every column list has the same length, pandas accepts the dict and
the dataframe's columns are exactly the dict entries in order. -/
lemma from_dict_ok_of_uniform (data : List (String × Column))
    (h : ∀ c ∈ data, ∀ c' ∈ data, c.2.length = c'.2.length) :
    pd_DataFrame_from_dict data = Except.ok ⟨data⟩ := by
  cases data with
  | nil => rfl
  | cons c rest =>
    have hall : rest.all (fun c2 => c2.2.length == c.2.length) = true := by
      rw [List.all_eq_true]
      intro x hx
      have := h x (List.mem_cons_of_mem _ hx) c (List.mem_cons_self _ _)
      simpa using this
    rw [pd_DataFrame_from_dict, if_pos hall]

/-- When two column lists differ in length, pandas rejects the dict. -/
lemma from_dict_error_of_nonuniform (data : List (String × Column))
    (h : ∃ c ∈ data, ∃ c' ∈ data, c.2.length ≠ c'.2.length) :
    pd_DataFrame_from_dict data =
      Except.error "ValueError: All arrays must be of the same length" := by
  cases data with
  | nil =>
    obtain ⟨c, hc, -⟩ := h
    simp at hc
  | cons c0 rest =>
    have hall : ¬(rest.all (fun c2 => c2.2.length == c0.2.length) = true) := by
      intro hall
      rw [List.all_eq_true] at hall
      have heq : ∀ x ∈ c0 :: rest, x.2.length = c0.2.length := by
        intro x hx
        rcases List.mem_cons.mp hx with h | h
        · rw [h]
        · simpa using hall x h
      obtain ⟨c, hc, c', hc', hne⟩ := h
      exact hne ((heq c hc).trans (heq c' hc').symm)
    rw [pd_DataFrame_from_dict, if_neg hall]

/-! Concrete stub results used by witnesses and counterexamples. -/

/-- A ragged stub result: output `"P"` has two feature-importance records,
output `"Q"` has one. -/
def ragC1 : LimeResults :=
  ⟨⟨[("P", ⟨[⟨"a", 1, 1, 1⟩, ⟨"b", 2, 1, 1⟩]⟩),
     ("Q", ⟨[⟨"c", 3, 1, 1⟩]⟩)]⟩⟩

/-- The stub result of the round-trip property: outputs `"A"` (one feature,
score `0.5`) and `"B"` (one feature, score `-0.3`). -/
def stubC1 : LimeResults :=
  ⟨⟨[("A", ⟨[⟨"f1", 1/2, 1, 1⟩]⟩),
     ("B", ⟨[⟨"f2", -(3/10), 2, 1⟩]⟩)]⟩⟩

/-- C1, counterexample to the claim as stated: the claim quantifies over
every saliency result, but on a result whose two outputs have different
record counts `as_dataframe()` does not return a dataframe at all — the
pandas constructor raises `ValueError` — so no dataframe with the stated
column structure exists. -/
theorem as_dataframe_universal_counterexample :
    (LimeResults.map ragC1).length = 2 ∧
    (Column.nums ((⟨[⟨"a", 1, 1, 1⟩, ⟨"b", 2, 1, 1⟩]⟩ : Saliency).perFeatureImportance.map PFI.score)).length = 2 ∧
    (Column.nums ((⟨[⟨"c", 3, 1, 1⟩]⟩ : Saliency).perFeatureImportance.map PFI.score)).length = 1 ∧
    LimeResults.as_dataframe ragC1 =
      Except.error "ValueError: All arrays must be of the same length" :=
  ⟨rfl, rfl, rfl, rfl⟩

/-- C1 (amended): for every saliency result whose outputs all have the same
per-feature-importance record count (the data-model invariant — one record
per input feature per output), `as_dataframe()` returns a dataframe with
4 × (number of outputs) columns, named, for each output `O` and in this
per-output order, `O_features`, `O_score`, `O_value`, `O_confidence`, where
each output's column group holds exactly that output's records (so its row
count is that output's record count). -/
theorem as_dataframe_shape (r : LimeResults)
    (h : ∀ e ∈ LimeResults.map r, ∀ e' ∈ LimeResults.map r,
        e.2.perFeatureImportance.length = e'.2.perFeatureImportance.length) :
    ∃ df, LimeResults.as_dataframe r = Except.ok df ∧
      df.cols.length = 4 * (LimeResults.map r).length ∧
      df.cols.map Prod.fst = (LimeResults.map r).flatMap
        (fun e => [e.1 ++ "_features", e.1 ++ "_score",
                   e.1 ++ "_value", e.1 ++ "_confidence"]) ∧
      ∀ e ∈ LimeResults.map r,
        (e.1 ++ "_features",
          Column.strs (e.2.perFeatureImportance.map PFI.featureName)) ∈ df.cols ∧
        (e.1 ++ "_score",
          Column.nums (e.2.perFeatureImportance.map PFI.score)) ∈ df.cols ∧
        (e.1 ++ "_value",
          Column.nums (e.2.perFeatureImportance.map PFI.value)) ∈ df.cols ∧
        (e.1 ++ "_confidence",
          Column.nums (e.2.perFeatureImportance.map PFI.confidence)) ∈ df.cols ∧
        (Column.nums (e.2.perFeatureImportance.map PFI.score)).length =
          e.2.perFeatureImportance.length := by
  have huni : ∀ c ∈ LimeResults.as_dataframe_data r, ∀ c' ∈ LimeResults.as_dataframe_data r,
      c.2.length = c'.2.length := by
    intro c hc c' hc'
    obtain ⟨e, he, hlen⟩ := col_length_dataLoop hc
    obtain ⟨e', he', hlen'⟩ := col_length_dataLoop hc'
    rw [hlen, hlen', h e he e' he']
  refine ⟨⟨LimeResults.as_dataframe_data r⟩, ?_, ?_, ?_, ?_⟩
  · rw [LimeResults.as_dataframe, from_dict_ok_of_uniform _ huni]
  · exact length_dataLoop _
  · exact map_fst_dataLoop _
  · intro e he
    have hmem := outputGroup_mem_dataLoop _ e he
    refine ⟨hmem _ ?_, hmem _ ?_, hmem _ ?_, hmem _ ?_, ?_⟩
    · simp [outputGroup]
    · simp [outputGroup]
    · simp [outputGroup]
    · simp [outputGroup]
    · simp [Column.length]

/-- Witness for C1 at the round-trip stub: the dataframe has exactly the
eight columns `A_features, A_score, A_value, A_confidence, B_features,
B_score, B_value, B_confidence` with `A_score = [0.5]` and
`B_score = [-0.3]`, and the general shape theorem applies to the stub. -/
theorem as_dataframe_shape_witness :
    (LimeResults.as_dataframe stubC1 = Except.ok
      ⟨[("A_features", Column.strs ["f1"]),
        ("A_score", Column.nums [1/2]),
        ("A_value", Column.nums [1]),
        ("A_confidence", Column.nums [1]),
        ("B_features", Column.strs ["f2"]),
        ("B_score", Column.nums [-(3/10)]),
        ("B_value", Column.nums [2]),
        ("B_confidence", Column.nums [1])]⟩) ∧
    (∃ df, LimeResults.as_dataframe stubC1 = Except.ok df ∧
      df.cols.length = 4 * (LimeResults.map stubC1).length ∧
      df.cols.map Prod.fst = (LimeResults.map stubC1).flatMap
        (fun e => [e.1 ++ "_features", e.1 ++ "_score",
                   e.1 ++ "_value", e.1 ++ "_confidence"]) ∧
      ∀ e ∈ LimeResults.map stubC1,
        (e.1 ++ "_features",
          Column.strs (e.2.perFeatureImportance.map PFI.featureName)) ∈ df.cols ∧
        (e.1 ++ "_score",
          Column.nums (e.2.perFeatureImportance.map PFI.score)) ∈ df.cols ∧
        (e.1 ++ "_value",
          Column.nums (e.2.perFeatureImportance.map PFI.value)) ∈ df.cols ∧
        (e.1 ++ "_confidence",
          Column.nums (e.2.perFeatureImportance.map PFI.confidence)) ∈ df.cols ∧
        (Column.nums (e.2.perFeatureImportance.map PFI.score)).length =
          e.2.perFeatureImportance.length) :=
  ⟨rfl, as_dataframe_shape stubC1 (by decide)⟩

/-- A ragged stub result for the unaligned-columns claim: output `"X"` has
one record, output `"Y"` has two. -/
def ragC2 : LimeResults :=
  ⟨⟨[("X", ⟨[⟨"u", 1, 1, 1⟩]⟩),
     ("Y", ⟨[⟨"v", 2, 1, 1⟩, ⟨"w", 3, 1, 1⟩]⟩)]⟩⟩

/-- C2, counterexample to the claim as stated: the claim says that for
outputs with different record counts `as_dataframe()` returns a dataframe
with no error raised, but on this two-output result with record counts 1
and 2 the call raises `ValueError` instead of returning a dataframe. -/
theorem as_dataframe_ragged_counterexample :
    (LimeResults.map ragC2).length = 2 ∧
    LimeResults.as_dataframe ragC2 =
      Except.error "ValueError: All arrays must be of the same length" :=
  ⟨rfl, rfl⟩

/-- C2 (amended): for every saliency result in which two outputs have
different per-feature-importance record counts, `as_dataframe` still builds
every output's four-column group unaligned — each column is exactly that
output's record list, with no reindexing and no padding — but the pandas
dataframe constructor then rejects the unequal column lengths, so the call
raises `ValueError` rather than returning a dataframe. -/
theorem as_dataframe_ragged_raises (r : LimeResults)
    (h : ∃ e ∈ LimeResults.map r, ∃ e' ∈ LimeResults.map r,
        e.2.perFeatureImportance.length ≠ e'.2.perFeatureImportance.length) :
    (∀ e ∈ LimeResults.map r,
      (e.1 ++ "_features",
        Column.strs (e.2.perFeatureImportance.map PFI.featureName))
          ∈ LimeResults.as_dataframe_data r ∧
      (e.1 ++ "_score",
        Column.nums (e.2.perFeatureImportance.map PFI.score))
          ∈ LimeResults.as_dataframe_data r ∧
      (e.1 ++ "_value",
        Column.nums (e.2.perFeatureImportance.map PFI.value))
          ∈ LimeResults.as_dataframe_data r ∧
      (e.1 ++ "_confidence",
        Column.nums (e.2.perFeatureImportance.map PFI.confidence))
          ∈ LimeResults.as_dataframe_data r ∧
      (Column.nums (e.2.perFeatureImportance.map PFI.score)).length =
        e.2.perFeatureImportance.length) ∧
    LimeResults.as_dataframe r =
      Except.error "ValueError: All arrays must be of the same length" := by
  constructor
  · intro e he
    have hmem := outputGroup_mem_dataLoop _ e he
    refine ⟨hmem _ ?_, hmem _ ?_, hmem _ ?_, hmem _ ?_, ?_⟩
    · simp [outputGroup]
    · simp [outputGroup]
    · simp [outputGroup]
    · simp [outputGroup]
    · simp [Column.length]
  · obtain ⟨e, he, e', he', hne⟩ := h
    rw [LimeResults.as_dataframe]
    apply from_dict_error_of_nonuniform
    refine ⟨(e.1 ++ "_score", Column.nums (e.2.perFeatureImportance.map PFI.score)),
      outputGroup_mem_dataLoop _ e he _ (by simp [outputGroup]),
      (e'.1 ++ "_score", Column.nums (e'.2.perFeatureImportance.map PFI.score)),
      outputGroup_mem_dataLoop _ e' he' _ (by simp [outputGroup]), ?_⟩
    simpa [Column.length] using hne

/-- Witness for C2 at the ragged stub: both outputs' column groups are built
with their own (unequal) lengths and the call then raises. -/
theorem as_dataframe_ragged_raises_witness :
    (∀ e ∈ LimeResults.map ragC2,
      (e.1 ++ "_features",
        Column.strs (e.2.perFeatureImportance.map PFI.featureName))
          ∈ LimeResults.as_dataframe_data ragC2 ∧
      (e.1 ++ "_score",
        Column.nums (e.2.perFeatureImportance.map PFI.score))
          ∈ LimeResults.as_dataframe_data ragC2 ∧
      (e.1 ++ "_value",
        Column.nums (e.2.perFeatureImportance.map PFI.value))
          ∈ LimeResults.as_dataframe_data ragC2 ∧
      (e.1 ++ "_confidence",
        Column.nums (e.2.perFeatureImportance.map PFI.confidence))
          ∈ LimeResults.as_dataframe_data ragC2 ∧
      (Column.nums (e.2.perFeatureImportance.map PFI.score)).length =
        e.2.perFeatureImportance.length) ∧
    LimeResults.as_dataframe ragC2 =
      Except.error "ValueError: All arrays must be of the same length" :=
  as_dataframe_ragged_raises ragC2 (by decide)

/-- A stub result for the colour-assignment witness: one output `"o"` with a
positive-score and a negative-score record. -/
def stubC3 : LimeResults :=
  ⟨⟨[("o", ⟨[⟨"g", 1, 1, 1⟩, ⟨"q", -1, 1, 1⟩]⟩)]⟩⟩

/-- The saliency of `stubC3`'s single output. -/
def stubC3sal : Saliency := ⟨[⟨"g", 1, 1, 1⟩, ⟨"q", -1, 1, 1⟩]⟩

/-- C3: a rendered record with score `≥ 0` (including exactly `0`) gets the
positive colour token and a record with score `< 0` gets the negative one,
both in `plot`'s colour list (whose entries are `plot_colour` of the bar
scores, in order) and in the interactive chart builder's `color` column
(`bokeh_color` applied per row). -/
theorem colour_assignment_sign :
    (∀ q : ℚ,
      (plot_colour q = ds "positive_primary_colour" ↔ 0 ≤ q) ∧
      (plot_colour q = ds "negative_primary_colour" ↔ q < 0) ∧
      (bokeh_color q = ds "positive_primary_colour" ↔ 0 ≤ q) ∧
      (bokeh_color q = ds "negative_primary_colour" ↔ q < 0)) ∧
    (∀ (r : LimeResults) (decision : String) (pd : PlotData),
      LimeResults.plot r decision = Except.ok pd →
        pd.colours = pd.bars.map (fun b => plot_colour b.2)) ∧
    (∀ sal : Saliency, ∀ row ∈ lime_data_source sal,
      row.color = bokeh_color row.saliency) := by
  have hne : ds "negative_primary_colour" ≠ ds "positive_primary_colour" := by decide
  refine ⟨?_, ?_, ?_⟩
  · intro q
    by_cases hq : q < 0
    · refine ⟨?_, ?_, ?_, ?_⟩
      · exact iff_of_false (by rw [plot_colour, if_pos hq]; exact hne) (not_le.mpr hq)
      · exact iff_of_true (by rw [plot_colour, if_pos hq]) hq
      · exact iff_of_false (by rw [bokeh_color, if_neg (not_le.mpr hq)]; exact hne)
          (not_le.mpr hq)
      · exact iff_of_true (by rw [bokeh_color, if_neg (not_le.mpr hq)]) hq
    · have h0 : 0 ≤ q := not_lt.mp hq
      refine ⟨?_, ?_, ?_, ?_⟩
      · exact iff_of_true (by rw [plot_colour, if_neg hq]) h0
      · exact iff_of_false (by rw [plot_colour, if_neg hq]; exact fun h => hne h.symm) hq
      · exact iff_of_true (by rw [bokeh_color, if_pos h0]) h0
      · exact iff_of_false (by rw [bokeh_color, if_pos h0]; exact fun h => hne h.symm) hq
  · intro r decision pd h
    cases hm : pyGet (LimeResults.map r) decision with
    | none =>
      rw [LimeResults.plot, hm] at h
      exact absurd h (by simp)
    | some sal =>
      rw [LimeResults.plot, hm] at h
      injection h with h
      rw [← h]
  · intro sal row hrow
    simp only [lime_data_source, List.mem_map] at hrow
    obtain ⟨pfi, -, heq⟩ := hrow
    rw [← heq]

/-- Witness for C3: the boundary score `0` and score `1` get the positive
token, score `-1` gets the negative token, `plot`'s colour list on a
concrete result is the per-bar colour map, and a concrete interactive-chart
row's colour token is its score's colour. -/
theorem colour_assignment_sign_witness :
    (plot_colour 0 = ds "positive_primary_colour") ∧
    (plot_colour (-1) = ds "negative_primary_colour") ∧
    (bokeh_color 0 = ds "positive_primary_colour") ∧
    (bokeh_color (-1) = ds "negative_primary_colour") ∧
    ((["#13ba3c", "#ee0000"] : List String) =
      [("g", (1 : ℚ)), ("q", (-1 : ℚ))].map (fun b => plot_colour b.2)) ∧
    ("#13ba3c" = bokeh_color 1) :=
  ⟨((colour_assignment_sign.1 0).1).mpr (by decide),
   ((colour_assignment_sign.1 (-1)).2.1).mpr (by decide),
   ((colour_assignment_sign.1 0).2.2.1).mpr (by decide),
   ((colour_assignment_sign.1 (-1)).2.2.2).mpr (by decide),
   colour_assignment_sign.2.1 stubC3 "o"
     ⟨"LIME explanation of o", [("g", 1), ("q", -1)], ["#13ba3c", "#ee0000"]⟩ rfl,
   colour_assignment_sign.2.2 stubC3sal ⟨"g", 1, "#13ba3c"⟩ (by decide)⟩

/-- A stub result for the missing-decision witness: only output `"income"`
is mapped. -/
def stubC4 : LimeResults :=
  ⟨⟨[("income", ⟨[⟨"age", 1, 1, 1⟩]⟩)]⟩⟩

/-- C4: calling `plot(decision)` with a decision that is not a key of
`map()` raises — `map().get(decision)` yields `None` and the attribute
access on `None` fails — rather than rendering anything or returning
normally. -/
theorem plot_missing_decision_raises (r : LimeResults) (decision : String)
    (h : decision ∉ (LimeResults.map r).map Prod.fst) :
    LimeResults.plot r decision =
      Except.error "AttributeError: NoneType object has no attribute getPerFeatureImportance" := by
  rw [LimeResults.plot, pyGet_eq_none_of_not_mem h]

/-- Witness for C4: plotting decision `"credit"` on a result that only maps
`"income"` raises. -/
theorem plot_missing_decision_raises_witness :
    LimeResults.plot stubC4 "credit" =
      Except.error "AttributeError: NoneType object has no attribute getPerFeatureImportance" :=
  plot_missing_decision_raises stubC4 "credit" (by decide)

/-- An unrecognised keyword option never reaches any of the six `kwargs.get`
calls, so each call returns its default. -/
lemma kwget_default_of_unrecognised {kwargs : Kwargs}
    (h : ∀ k ∈ kwargs.map Prod.fst, k ∉ recognised_kwargs) :
    ∀ key ∈ recognised_kwargs, ∀ d, kwget kwargs key d = d := by
  intro key hkey d
  have hkm : key ∉ kwargs.map Prod.fst := fun hmem => h key hmem hkey
  rw [kwget, pyGet_eq_none_of_not_mem hkm]
  rfl

/-- C5: constructing `LimeExplainer` with no keyword options yields the
configuration with `samples = 10`, `penalise_sparse_balance = True`,
`normalise_weights = False`, `use_wlr_model = True`, `seed = 0`,
`perturbations = 1` and `track_counterfactuals = False`; and any set of
unrecognised keyword options is ignored — construction does not raise (the
embedding is total) and produces exactly the same state as construction
without them. -/
theorem lime_explainer_defaults :
    (LimeExplainer.init_noargs.1.lime_config =
      { normalizeWeights := KwVal.bool false
        perturbationContext := ⟨⟨KwVal.int 0⟩, KwVal.int 1⟩
        samples := 10
        encodingParams := ⟨7/100, 3/10⟩
        adaptiveVariance := true
        penalizeBalanceSparse := KwVal.bool true
        useWLRLinearModel := KwVal.bool true
        trackCounterfactuals := KwVal.bool false }) ∧
    ∀ kwargs : Kwargs, (∀ k ∈ kwargs.map Prod.fst, k ∉ recognised_kwargs) →
      LimeExplainer.init samples_default kwargs = LimeExplainer.init_noargs := by
  constructor
  · rfl
  · intro kwargs h
    have hd := kwget_default_of_unrecognised h
    rw [LimeExplainer.init_noargs]
    simp only [LimeExplainer.init,
      hd "seed" (by decide) _, hd "normalise_weights" (by decide) _,
      hd "perturbations" (by decide) _, hd "penalise_sparse_balance" (by decide) _,
      hd "use_wlr_model" (by decide) _, hd "track_counterfactuals" (by decide) _]
    rfl

/-- Witness for C5: a bogus keyword option is ignored and construction
matches the no-options construction. -/
theorem lime_explainer_defaults_witness :
    LimeExplainer.init samples_default [("bogus_option", KwVal.int 99)] =
      LimeExplainer.init_noargs :=
  lime_explainer_defaults.2 [("bogus_option", KwVal.int 99)] (by decide)

/-- C8: for every sample count and keyword options, construction performs
exactly the statement effects of `__init__` — building and seeding the
random generator, building the configuration, building the engine wrapper —
and in particular never invokes the engine's explanation operation. -/
theorem lime_explainer_init_no_engine_call :
    ∀ (samples : Int) (kwargs : Kwargs),
      (LimeExplainer.init samples kwargs).2 =
        [InitEffect.buildRandom, InitEffect.setSeed, InitEffect.buildConfig,
         InitEffect.buildWrapper] ∧
      List.count InitEffect.engineExplain (LimeExplainer.init samples kwargs).2 = 0 :=
  fun _ _ => ⟨rfl, rfl⟩

/-- C9: regardless of the supplied options, the built configuration always
carries the fixed encoding parameters `(0.07, 0.3)` — embedded as the
rationals `7/100` and `3/10` — and adaptive variance set to `true`; no
keyword reaches either value. -/
theorem lime_explainer_fixed_encoding :
    ∀ (samples : Int) (kwargs : Kwargs),
      (LimeExplainer.init samples kwargs).1.lime_config.encodingParams =
        EncodingParams.mk (7/100) (3/10) ∧
      (LimeExplainer.init samples kwargs).1.lime_config.adaptiveVariance = true :=
  fun _ _ => ⟨rfl, rfl⟩

/-- A stub result for the `as_html` witness. -/
def stubC6 : LimeResults :=
  ⟨⟨[("approved", ⟨[⟨"age", 1, 1, 1⟩, ⟨"salary", -2, 2, 1⟩]⟩)]⟩⟩

/-- C6: whenever `as_dataframe()` produces a dataframe, `as_html()` produces
the styler over exactly that dataframe — same data, columns and rows — with
no styles applied: it is `as_dataframe().style` and nothing more. -/
theorem as_html_is_dataframe_style (r : LimeResults) (df : DataFrame)
    (h : LimeResults.as_dataframe r = Except.ok df) :
    LimeResults.as_html r = Except.ok (DataFrame.style df) ∧
    (DataFrame.style df).data = df ∧
    (DataFrame.style df).applied_styles = [] := by
  refine ⟨?_, rfl, rfl⟩
  rw [LimeResults.as_html, h]
  rfl

/-- Witness for C6 at a concrete result. -/
theorem as_html_is_dataframe_style_witness :
    LimeResults.as_html stubC6 = Except.ok (DataFrame.style
      ⟨[("approved_features", Column.strs ["age", "salary"]),
        ("approved_score", Column.nums [1, -2]),
        ("approved_value", Column.nums [1, 2]),
        ("approved_confidence", Column.nums [1, 1])]⟩) ∧
    (DataFrame.style
      ⟨[("approved_features", Column.strs ["age", "salary"]),
        ("approved_score", Column.nums [1, -2]),
        ("approved_value", Column.nums [1, 2]),
        ("approved_confidence", Column.nums [1, 1])]⟩).data =
      ⟨[("approved_features", Column.strs ["age", "salary"]),
        ("approved_score", Column.nums [1, -2]),
        ("approved_value", Column.nums [1, 2]),
        ("approved_confidence", Column.nums [1, 1])]⟩ ∧
    (DataFrame.style
      ⟨[("approved_features", Column.strs ["age", "salary"]),
        ("approved_score", Column.nums [1, -2]),
        ("approved_value", Column.nums [1, 2]),
        ("approved_confidence", Column.nums [1, 1])]⟩).applied_styles = [] :=
  as_html_is_dataframe_style stubC6 _ rfl

/-- C7: `explain` wraps no error handling around the conversion step or the
engine call — an error raised by `simple_prediction` is the result of
`explain` unchanged, and so is an error raised by
`explainAsync(..).get()` after a successful conversion. -/
theorem explain_propagates_errors {I O P M : Type}
    (simple_prediction : I → O → Except String P)
    (explainAsync_get : P → M → Except String SaliencyResults)
    (inputs : I) (outputs : O) (model : M) (e : String) :
    (simple_prediction inputs outputs = Except.error e →
      LimeExplainer.explain simple_prediction explainAsync_get inputs outputs model =
        Except.error e) ∧
    (∀ p, simple_prediction inputs outputs = Except.ok p →
      explainAsync_get p model = Except.error e →
      LimeExplainer.explain simple_prediction explainAsync_get inputs outputs model =
        Except.error e) := by
  constructor
  · intro h
    rw [LimeExplainer.explain, h]
  · intro p h1 h2
    simp only [LimeExplainer.explain, h1, h2]

/-- Witness for C7: a failing conversion and a failing engine call each
surface unmodified from concrete `explain` calls. -/
theorem explain_propagates_errors_witness :
    (LimeExplainer.explain
        (fun (_ : Nat) (_ : Nat) => (Except.error "conversion failed" : Except String Nat))
        (fun _ (_ : Nat) => (Except.ok ⟨[]⟩ : Except String SaliencyResults))
        0 0 0 = Except.error "conversion failed") ∧
    (LimeExplainer.explain
        (fun (_ : Nat) (_ : Nat) => (Except.ok 7 : Except String Nat))
        (fun _ (_ : Nat) => (Except.error "engine failed" : Except String SaliencyResults))
        0 0 0 = Except.error "engine failed") :=
  ⟨(explain_propagates_errors _ _ 0 0 0 "conversion failed").1 rfl,
   (explain_propagates_errors _ _ 0 0 0 "engine failed").2 7 rfl rfl⟩

/-- A stub result with a duplicated feature name: output `"out"` carries
records named `dup` (score 1), `other` (score 2), `dup` (score 3). -/
def stubC10 : LimeResults :=
  ⟨⟨[("out", ⟨[⟨"dup", 1, 1, 1⟩, ⟨"other", 2, 1, 1⟩, ⟨"dup", 3, 1, 1⟩]⟩)]⟩⟩

/-- The saliency of `stubC10`'s single output. -/
def stubC10sal : Saliency :=
  ⟨[⟨"dup", 1, 1, 1⟩, ⟨"other", 2, 1, 1⟩, ⟨"dup", 3, 1, 1⟩]⟩

/-- C10: when an output has two or more records sharing a feature name,
`plot` collapses them into a single bar keyed by that name (exactly one
`bars` entry carries the name) whose score is the last such record's score
(dict insertion overwrites), whereas the `as_dataframe` data keeps that
output's score column at one entry per record. -/
theorem plot_duplicate_feature_names (r : LimeResults) (decision name : String)
    (sal : Saliency)
    (hget : pyGet (LimeResults.map r) decision = some sal)
    (hdup : 2 ≤ (sal.perFeatureImportance.filter
        (fun p => p.featureName == name)).length) :
    ∃ pd, LimeResults.plot r decision = Except.ok pd ∧
      pd.bars.countP (fun b => b.1 == name) = 1 ∧
      pyGet pd.bars name = lastScore? name sal.perFeatureImportance ∧
      (decision, sal) ∈ LimeResults.map r ∧
      (decision ++ "_score", Column.nums (sal.perFeatureImportance.map PFI.score))
        ∈ LimeResults.as_dataframe_data r ∧
      (Column.nums (sal.perFeatureImportance.map PFI.score)).length =
        sal.perFeatureImportance.length := by
  have hmem : (decision, sal) ∈ LimeResults.map r := mem_of_pyGet_some hget
  have hsome : ∃ p ∈ sal.perFeatureImportance, p.featureName = name := by
    have hlen : 0 < (sal.perFeatureImportance.filter
        (fun p => p.featureName == name)).length := by omega
    rw [List.length_pos] at hlen
    obtain ⟨p, hp⟩ := List.exists_mem_of_ne_nil _ hlen
    rw [List.mem_filter] at hp
    exact ⟨p, hp.1, eq_of_beq hp.2⟩
  have hlast : lastScore? name sal.perFeatureImportance ≠ none := by
    intro hnone
    rw [lastScore?_eq_none_iff] at hnone
    obtain ⟨p, hp, hpn⟩ := hsome
    exact hnone p hp hpn
  obtain ⟨v, hv⟩ := Option.ne_none_iff_exists'.mp hlast
  have hpy : pyGet (plot_dictionary sal.perFeatureImportance) name = some v := by
    rw [pyGet_plot_dictionary, hv]
  refine ⟨⟨"LIME explanation of " ++ decision,
    plot_dictionary sal.perFeatureImportance,
    (plot_dictionary sal.perFeatureImportance).map (fun b => plot_colour b.2)⟩,
    ?_, ?_, ?_, hmem, ?_, ?_⟩
  · rw [LimeResults.plot, hget]
  · exact countP_keys_eq_one _ name (nodup_keys_plot_dictionary _)
      (mem_keys_of_pyGet_some hpy)
  · exact pyGet_plot_dictionary _ _
  · exact outputGroup_mem_dataLoop _ (decision, sal) hmem _ (by simp [outputGroup])
  · simp [Column.length]

/-- Witness for C10 at the duplicated-name stub; the surviving bar's score
is the last `dup` record's score, `3`. -/
theorem plot_duplicate_feature_names_witness :
    (∃ pd, LimeResults.plot stubC10 "out" = Except.ok pd ∧
      pd.bars.countP (fun b => b.1 == "dup") = 1 ∧
      pyGet pd.bars "dup" = lastScore? "dup" stubC10sal.perFeatureImportance ∧
      ("out", stubC10sal) ∈ LimeResults.map stubC10 ∧
      ("out" ++ "_score", Column.nums (stubC10sal.perFeatureImportance.map PFI.score))
        ∈ LimeResults.as_dataframe_data stubC10 ∧
      (Column.nums (stubC10sal.perFeatureImportance.map PFI.score)).length =
        stubC10sal.perFeatureImportance.length) ∧
    lastScore? "dup" stubC10sal.perFeatureImportance = some 3 :=
  ⟨plot_duplicate_feature_names stubC10 "out" "dup" stubC10sal rfl (by decide), rfl⟩

end TrustyAI
